import Mathlib

/-!
Verification of the dependency-resolution logic of `conanfile.py` (the
`RopesConanFile` recipe).

The recipe holds an ordered mapping `conan_packages` from logical package
names to version references.  Its `configure` method applies three
conditional steps, in source order:

1. if `check_opengl_compatibility == "yes"`, assign
   `conan_packages["opengl"] = opengl_sanity_check`;
2. if `sdl_source == "system"`, call `conan_packages.pop("sdl")` and then
   `conan_packages.pop("sdl_ttf")`;
3. if `opengl_source == "system"`, call `conan_packages.pop("glfw")`.

Python's `dict.pop(key)` with no default argument raises `KeyError` when the
key is absent; the source calls `pop` without a default, so a failed pop is
modelled as `Except.error key`.  Python dicts are ordered, so the mapping is
embedded as an association list; assignment updates the value in place when
the key is present and appends otherwise, exactly as a Python dict does.
-/

/-- A Python dict from package name to version reference, as an ordered
association list (Python dicts preserve insertion order and have no
duplicate keys). -/
abbrev Dict := List (String × String)

deriving instance DecidableEq for Except

/-- Python `k in d`. -/
def hasKey (d : Dict) (k : String) : Bool :=
  d.any (fun p => p.1 == k)

/-- Python `d[k] = v`: update the value in place when `k` is present,
append the new entry at the end otherwise. -/
def dictSet (d : Dict) (k v : String) : Dict :=
  if hasKey d k then d.map (fun p => if p.1 == k then (k, v) else p)
  else d ++ [(k, v)]

/-- Python `d.pop(k)` with no default: remove the entry when present,
raise `KeyError` (modelled as `Except.error k`) when absent. -/
def dictPop (d : Dict) (k : String) : Except String Dict :=
  if hasKey d k then .ok (d.filter (fun p => p.1 != k)) else .error k

/-- Sequencing of fallible dict transformations: a raised `KeyError`
propagates past the remaining steps. -/
def andThen (e : Except String Dict) (f : Dict → Except String Dict) :
    Except String Dict :=
  match e with
  | .error err => .error err
  | .ok d => f d

/-- The class attribute `opengl_sanity_check` of the recipe: the phantom
package that only probes the host for OpenGL capability. -/
def opengl_sanity_check : String := "opengl/system"

/-- The class attribute `conan_packages` of the recipe: the base table of
dependencies, in source order. -/
def conan_packages : Dict :=
  [ ("fmt"        , "fmt/10.2.1"),
    ("mp-units"   , "mp-units/2.2.1"),
    ("scope-lite" , "scope-lite/0.2.0"),
    ("structopt"  , "structopt/0.1.3"),
    ("imgui"      , "imgui/1.90.5"),
    ("implot"     , "implot/0.16"),
    ("glfw"       , "glfw/3.3.8"),
    ("sdl"        , "sdl/2.28.3"),
    ("sdl_ttf"    , "sdl_ttf/2.22.0") ]

/-- The recipe's option values.  The source declares the domains
`check_opengl_compatibility : [yes, no]`, `opengl_source : [conan, system]`,
`sdl_source : [conan, system]`, but `configure` only ever compares the
values against string literals, so the fields are plain strings; this also
lets out-of-domain values be examined (claim about fallthrough). -/
structure Options where
  check_opengl_compatibility : String
  opengl_source : String
  sdl_source : String
deriving Repr, DecidableEq

/-- The declared option domains of the `options` class attribute. -/
def options_domains : List (String × List String) :=
  [ ("check_opengl_compatibility", ["yes", "no"]),
    ("opengl_source", ["conan", "system"]),
    ("sdl_source", ["conan", "system"]) ]

/-- The `default_options` class attribute (the `mp-units/*:std_format`
pass-through entry is not an option of this recipe and is modelled by
`mp_units_std_format` below). -/
def default_options : Options :=
  { check_opengl_compatibility := "yes"
  , opengl_source := "conan"
  , sdl_source := "conan" }

/-- The `mp-units/*:std_format` entry of `default_options`, passed through
verbatim to the mp-units package and never read by this recipe. -/
def mp_units_std_format : Bool := false

/-- First conditional of `configure`: when `check_opengl_compatibility`
equals `"yes"`, assign the sanity-check entry under key `"opengl"`. -/
def stepCheckOpengl (opts : Options) (d : Dict) : Except String Dict :=
  if opts.check_opengl_compatibility == "yes" then
    .ok (dictSet d "opengl" opengl_sanity_check)
  else .ok d

/-- Second conditional of `configure`: when `sdl_source` equals
`"system"`, pop `"sdl"` and then pop `"sdl_ttf"` (each pop raising
`KeyError` when its key is absent). -/
def stepSdl (opts : Options) (d : Dict) : Except String Dict :=
  if opts.sdl_source == "system" then
    match dictPop d "sdl" with
    | .error e => .error e
    | .ok d1 => dictPop d1 "sdl_ttf"
  else .ok d

/-- Third conditional of `configure`: when `opengl_source` equals
`"system"`, pop `"glfw"`. -/
def stepOpengl (opts : Options) (d : Dict) : Except String Dict :=
  if opts.opengl_source == "system" then dictPop d "glfw" else .ok d

/-- The `configure` method: the three conditionals applied to
`conan_packages` in source order.  In the source the mapping is the class
attribute `self.conan_packages`, mutated in place; here the mutation is
explicit state passing, so invoking `configure` again on the recipe object
corresponds to applying `configure` to the dict this call returns. -/
def configure (opts : Options) (pkgs : Dict) : Except String Dict :=
  andThen (andThen (stepCheckOpengl opts pkgs) (stepSdl opts)) (stepOpengl opts)

/-- The `requirements` method: for each surviving entry, in order, call
`self.requires(ref)` with that entry's version reference.  It only reads
`conan_packages`; the returned pair is (the mapping after the call, the
list of installer calls made). -/
def requirements (pkgs : Dict) : Dict × List String :=
  (pkgs, pkgs.map (fun p => p.2))

/-- The `generate` method: instantiate `CMakeToolchain` and `CMakeDeps` and
call `generate()` on each.  It never touches `conan_packages`; the returned
pair is (the mapping after the call, the generator actions performed). -/
def generate (pkgs : Dict) : Dict × List String :=
  (pkgs, ["CMakeToolchain.generate", "CMakeDeps.generate"])

/-- The `layout` method: call `cmake_layout(self)`.  It never touches
`conan_packages`. -/
def layout (pkgs : Dict) : Dict × List String :=
  (pkgs, ["cmake_layout"])

/-- The step of `configure` at position `i` of the source order:
0 = opengl sanity-check insertion, 1 = sdl removal, 2 = glfw removal. -/
def stepAt (opts : Options) (i : Nat) : Dict → Except String Dict :=
  match i with
  | 0 => stepCheckOpengl opts
  | 1 => stepSdl opts
  | _ => stepOpengl opts

/-- Run the three conditional steps of `configure` in the order given by
the index list. -/
def runOrder (opts : Options) (order : List Nat) (d : Dict) :
    Except String Dict :=
  order.foldl (fun e i => andThen e (stepAt opts i)) (.ok d)

/-- `true` iff the computation succeeded with a mapping containing key
`k`; `false` on `KeyError` or when the key is absent. -/
def okHasKey (e : Except String Dict) (k : String) : Bool :=
  match e with
  | .ok d => hasKey d k
  | .error _ => false

/-- `true` iff the computation succeeded (no `KeyError`). -/
def okResult (e : Except String Dict) : Bool :=
  match e with
  | .ok _ => true
  | .error _ => false

/-- `true` iff `d` is an entry-wise subset of `e`: every (key, value) pair
of `d` occurs in `e`. -/
def entriesIn (d e : Dict) : Bool :=
  d.all (fun p => e.any (fun q => p.1 == q.1 && p.2 == q.2))

/-- `true` iff the computation succeeded with a mapping that is an
entry-wise subset of `e`. -/
def okEntriesIn (em : Except String Dict) (e : Dict) : Bool :=
  match em with
  | .ok d => entriesIn d e
  | .error _ => false

/-- C3: with every option at its default (`check_opengl_compatibility =
yes`, `opengl_source = conan`, `sdl_source = conan`), `configure` applied
to the base mapping returns the base table plus the entry
`opengl -> "opengl/system"`, 10 entries in total. -/
theorem configure_defaults_result :
    configure default_options conan_packages
      = .ok (conan_packages ++ [("opengl", opengl_sanity_check)])
    ∧ opengl_sanity_check = "opengl/system"
    ∧ (conan_packages ++ [("opengl", opengl_sanity_check)]).length = 10 := by
  decide

/-- C6: for every option set with `check_opengl_compatibility = "no"`
(the other two options arbitrary strings), `configure` applied to the base
mapping succeeds and the resulting mapping does not contain the key
`"opengl"`. -/
theorem configure_no_check_no_opengl (o s : String) :
    okResult (configure ⟨"no", o, s⟩ conan_packages) = true
    ∧ okHasKey (configure ⟨"no", o, s⟩ conan_packages) "opengl" = false := by
  cases hs : (s == "system") <;> cases ho : (o == "system") <;>
    simp [configure, andThen, stepCheckOpengl, stepSdl, stepOpengl,
      dictSet, dictPop, hasKey, okResult, okHasKey,
      conan_packages, opengl_sanity_check, hs, ho]

/-- C8: for every option set (all three option values arbitrary strings),
`configure` applied to the base mapping succeeds and every entry of the
result occurs in the base mapping extended with the single entry
`opengl -> opengl_sanity_check`: the resolution only ever deletes entries,
the sole possible addition being the OpenGL sanity-check entry. -/
theorem configure_subset_base_plus_opengl (c o s : String) :
    okResult (configure ⟨c, o, s⟩ conan_packages) = true
    ∧ okEntriesIn (configure ⟨c, o, s⟩ conan_packages)
        (conan_packages ++ [("opengl", opengl_sanity_check)]) = true := by
  cases hc : (c == "yes") <;> cases hs : (s == "system") <;>
    cases ho : (o == "system") <;>
    simp [configure, andThen, stepCheckOpengl, stepSdl, stepOpengl,
      dictSet, dictPop, hasKey, okResult, okHasKey, entriesIn, okEntriesIn,
      conan_packages, opengl_sanity_check, hc, hs, ho]

/-- C4: for every option set with `sdl_source = "system"` (the other two
option values arbitrary strings), `configure` applied to the base mapping
yields exactly the result of the same option set with
`sdl_source = "conan"` minus the entries `"sdl"` and `"sdl_ttf"`, every
other entry unchanged (same order, same values); both entries were present
before and are absent after, so exactly they are removed. -/
theorem configure_sdl_system_removes_exactly_sdl (c o : String) :
    configure ⟨c, o, "system"⟩ conan_packages
      = Except.map
          (fun d => d.filter (fun p => p.1 != "sdl" && p.1 != "sdl_ttf"))
          (configure ⟨c, o, "conan"⟩ conan_packages)
    ∧ okHasKey (configure ⟨c, o, "conan"⟩ conan_packages) "sdl" = true
    ∧ okHasKey (configure ⟨c, o, "conan"⟩ conan_packages) "sdl_ttf" = true
    ∧ okHasKey (configure ⟨c, o, "system"⟩ conan_packages) "sdl" = false
    ∧ okHasKey (configure ⟨c, o, "system"⟩ conan_packages) "sdl_ttf" = false := by
  cases hc : (c == "yes") <;> cases ho : (o == "system") <;>
    simp [configure, andThen, stepCheckOpengl, stepSdl, stepOpengl,
      dictSet, dictPop, hasKey, okHasKey, Except.map,
      conan_packages, opengl_sanity_check, hc, ho]

/-- C5: for every option set with `opengl_source = "system"` (the other
two option values arbitrary strings), `configure` applied to the base
mapping yields exactly the result of the same option set with
`opengl_source = "conan"` minus the entry `"glfw"`, every other entry
unchanged (same order, same values); the entry was present before and is
absent after, so exactly it is removed. -/
theorem configure_opengl_system_removes_exactly_glfw (c s : String) :
    configure ⟨c, "system", s⟩ conan_packages
      = Except.map (fun d => d.filter (fun p => p.1 != "glfw"))
          (configure ⟨c, "conan", s⟩ conan_packages)
    ∧ okHasKey (configure ⟨c, "conan", s⟩ conan_packages) "glfw" = true
    ∧ okHasKey (configure ⟨c, "system", s⟩ conan_packages) "glfw" = false := by
  cases hc : (c == "yes") <;> cases hs : (s == "system") <;>
    simp [configure, andThen, stepCheckOpengl, stepSdl, stepOpengl,
      dictSet, dictPop, hasKey, okHasKey, Except.map,
      conan_packages, opengl_sanity_check, hc, hs]

/-- C7: for every option set (all three option values arbitrary strings),
applying the three conditional steps of `configure` (0 = insert the OpenGL
sanity-check entry, 1 = remove `sdl` and `sdl_ttf`, 2 = remove `glfw`) to
the base mapping in any of the six possible orders yields the same final
mapping, namely the one `configure` (which uses the source order 0,1,2)
produces. -/
theorem configure_steps_commute (c o s : String) :
    runOrder ⟨c, o, s⟩ [0, 1, 2] conan_packages
        = configure ⟨c, o, s⟩ conan_packages
    ∧ runOrder ⟨c, o, s⟩ [0, 2, 1] conan_packages
        = configure ⟨c, o, s⟩ conan_packages
    ∧ runOrder ⟨c, o, s⟩ [1, 0, 2] conan_packages
        = configure ⟨c, o, s⟩ conan_packages
    ∧ runOrder ⟨c, o, s⟩ [1, 2, 0] conan_packages
        = configure ⟨c, o, s⟩ conan_packages
    ∧ runOrder ⟨c, o, s⟩ [2, 0, 1] conan_packages
        = configure ⟨c, o, s⟩ conan_packages
    ∧ runOrder ⟨c, o, s⟩ [2, 1, 0] conan_packages
        = configure ⟨c, o, s⟩ conan_packages := by
  cases hc : (c == "yes") <;> cases hs : (s == "system") <;>
    cases ho : (o == "system") <;>
    simp [runOrder, stepAt, configure, andThen, stepCheckOpengl, stepSdl,
      stepOpengl, dictSet, dictPop, hasKey,
      conan_packages, opengl_sanity_check, hc, hs, ho]

/-- C1 counterexample: with `sdl_source = "system"` (the other options at
their defaults) a first invocation of `configure` on the recipe succeeds,
but since `configure` mutates `self.conan_packages` in place, a second
invocation with the same inputs operates on the mapping the first one left
behind and raises `KeyError` on `pop("sdl")`: the outputs of the two
invocations differ, and an effect is carried over from the first to the
second. -/
theorem configure_state_carries_over :
    configure ⟨"yes", "conan", "system"⟩ conan_packages
        ≠ Except.error "sdl"
    ∧ andThen (configure ⟨"yes", "conan", "system"⟩ conan_packages)
        (configure ⟨"yes", "conan", "system"⟩) = Except.error "sdl" := by
  decide

/-- C1 amended: `configure` is a deterministic function of the mapping and
the option values, but it mutates the mapping in place, so a second
invocation starts from the first invocation's output; the second
invocation yields output identical to the first exactly when
`sdl_source ≠ "system"` and `opengl_source ≠ "system"` (only the OpenGL
sanity-check insertion is idempotent; a repeated `pop` raises
`KeyError`). -/
theorem configure_twice_eq_iff (c o s : String) :
    (andThen (configure ⟨c, o, s⟩ conan_packages) (configure ⟨c, o, s⟩)
        = configure ⟨c, o, s⟩ conan_packages)
      ↔ (s ≠ "system" ∧ o ≠ "system") := by
  by_cases hc : c = "yes" <;> by_cases hs : s = "system" <;>
    by_cases ho : o = "system" <;>
    simp [configure, andThen, stepCheckOpengl, stepSdl, stepOpengl,
      dictSet, dictPop, hasKey, conan_packages, opengl_sanity_check,
      hc, hs, ho]

/-- C2 counterexample: on a mapping in which `"sdl"` is absent,
`configure` with `sdl_source = "system"` does not complete silently: the
unguarded `pop("sdl")` raises `KeyError`. -/
theorem configure_pop_absent_raises_concrete :
    hasKey [("fmt", "fmt/10.2.1")] "sdl" = false
    ∧ configure ⟨"no", "conan", "system"⟩ [("fmt", "fmt/10.2.1")]
        = Except.error "sdl" := by
  decide

/-- Updating the value stored under key `k` never changes which keys are
present. -/
theorem hasKey_updateVal (d : Dict) (k v k1 : String) :
    hasKey (d.map (fun p => if p.1 == k then (k, v) else p)) k1
      = hasKey d k1 := by
  induction d with
  | nil => rfl
  | cons p t ih =>
    simp only [hasKey, List.map_cons, List.any_cons] at ih ⊢
    rw [ih]
    by_cases hp : p.1 = k
    · simp [hp]
    · simp [hp]

/-- Assigning under key `k` does not change whether a different key `k1`
is present. -/
theorem hasKey_dictSet_ne (d : Dict) (k v k1 : String) (h : k1 ≠ k) :
    hasKey (dictSet d k v) k1 = hasKey d k1 := by
  unfold dictSet
  split
  · exact hasKey_updateVal d k v k1
  · simp [hasKey, List.any_append, Ne.symm h]

/-- C2 amended: removing an absent entry is an error. On every mapping in
which `"sdl"` is absent, `configure` with `sdl_source = "system"` raises
`KeyError("sdl")` instead of completing silently; on every mapping in
which `"glfw"` is absent, `configure` with `opengl_source = "system"` (and
`sdl_source ≠ "system"`, so the earlier pops do not mask it) raises
`KeyError("glfw")`.  Removal is silent only when the popped keys are
present. -/
theorem configure_pop_absent_raises :
    (∀ (c o : String) (d : Dict), hasKey d "sdl" = false →
      configure ⟨c, o, "system"⟩ d = Except.error "sdl")
    ∧ (∀ (c s : String) (d : Dict), s ≠ "system" →
      hasKey d "glfw" = false →
      configure ⟨c, "system", s⟩ d = Except.error "glfw") := by
  constructor
  · intro c o d hd
    have hd1 : hasKey (dictSet d "opengl" opengl_sanity_check) "sdl"
        = false := by
      rw [hasKey_dictSet_ne _ _ _ _ (by decide)]; exact hd
    by_cases hc : c = "yes" <;>
      simp [configure, andThen, stepCheckOpengl, stepSdl, dictPop,
        hc, hd, hd1]
  · intro c s d hs hd
    have hd1 : hasKey (dictSet d "opengl" opengl_sanity_check) "glfw"
        = false := by
      rw [hasKey_dictSet_ne _ _ _ _ (by decide)]; exact hd
    by_cases hc : c = "yes" <;>
      simp [configure, andThen, stepCheckOpengl, stepSdl, stepOpengl,
        dictPop, hc, hs, hd, hd1]

/-- C2 amended, witness: on the empty mapping, `sdl_source = "system"`
raises `KeyError("sdl")` and `opengl_source = "system"` raises
`KeyError("glfw")`. -/
theorem configure_pop_absent_raises_witness :
    configure ⟨"no", "conan", "system"⟩ ([] : Dict) = Except.error "sdl"
    ∧ configure ⟨"no", "system", "conan"⟩ ([] : Dict)
        = Except.error "glfw" :=
  ⟨configure_pop_absent_raises.1 "no" "conan" [] (by decide),
   configure_pop_absent_raises.2 "no" "conan" [] (by decide) (by decide)⟩

/-- C9: `requirements`, `generate` and `layout` leave the dependency
mapping unchanged — among the recipe's methods only `configure` ever
changes it (witnessed by the defaults run, which adds the sanity-check
entry) — and `requirements` issues exactly one installer call per
surviving entry, in order, with that entry's version reference. -/
theorem post_configure_methods_preserve_packages (d : Dict) :
    (requirements d).1 = d
    ∧ (generate d).1 = d
    ∧ (layout d).1 = d
    ∧ (requirements d).2 = d.map (fun p => p.2)
    ∧ ((requirements d).2).length = d.length
    ∧ configure default_options conan_packages ≠ Except.ok conan_packages :=
  ⟨rfl, rfl, rfl, rfl, by simp [requirements], by decide⟩

/-- C10: option values are never validated against their declared
domains: for arbitrary strings (out-of-domain values included) `configure`
on the base mapping raises no error and each condition behaves as its
non-matching branch — a value other than `"yes"` adds no `opengl` entry
and acts exactly like `"no"`, a `sdl_source` other than `"system"` keeps
`sdl` and `sdl_ttf` and acts exactly like `"conan"`, and an
`opengl_source` other than `"system"` keeps `glfw` and acts exactly like
`"conan"`. -/
theorem configure_out_of_domain_fallthrough (c o s : String) :
    okResult (configure ⟨c, o, s⟩ conan_packages) = true
    ∧ (c ≠ "yes" →
        okHasKey (configure ⟨c, o, s⟩ conan_packages) "opengl" = false)
    ∧ (c ≠ "yes" →
        configure ⟨c, o, s⟩ conan_packages
          = configure ⟨"no", o, s⟩ conan_packages)
    ∧ (s ≠ "system" →
        okHasKey (configure ⟨c, o, s⟩ conan_packages) "sdl" = true
        ∧ okHasKey (configure ⟨c, o, s⟩ conan_packages) "sdl_ttf" = true)
    ∧ (s ≠ "system" →
        configure ⟨c, o, s⟩ conan_packages
          = configure ⟨c, o, "conan"⟩ conan_packages)
    ∧ (o ≠ "system" →
        okHasKey (configure ⟨c, o, s⟩ conan_packages) "glfw" = true)
    ∧ (o ≠ "system" →
        configure ⟨c, o, s⟩ conan_packages
          = configure ⟨c, "conan", s⟩ conan_packages) := by
  by_cases hc : c = "yes" <;> by_cases hs : s = "system" <;>
    by_cases ho : o = "system" <;>
    simp [configure, andThen, stepCheckOpengl, stepSdl, stepOpengl,
      dictSet, dictPop, hasKey, okResult, okHasKey,
      conan_packages, opengl_sanity_check, hc, hs, ho]

/-- C10 witness: with every option set to a string outside its declared
domain, `configure` succeeds, adds no `opengl` entry, and keeps `sdl`,
`sdl_ttf` and `glfw`, exactly as if `check_opengl_compatibility` had been
`"no"`. -/
theorem configure_out_of_domain_fallthrough_witness :
    okResult (configure ⟨"maybe", "local", "weird"⟩ conan_packages) = true
    ∧ okHasKey (configure ⟨"maybe", "local", "weird"⟩ conan_packages)
        "opengl" = false
    ∧ okHasKey (configure ⟨"maybe", "local", "weird"⟩ conan_packages)
        "sdl" = true
    ∧ okHasKey (configure ⟨"maybe", "local", "weird"⟩ conan_packages)
        "sdl_ttf" = true
    ∧ okHasKey (configure ⟨"maybe", "local", "weird"⟩ conan_packages)
        "glfw" = true
    ∧ configure ⟨"maybe", "local", "weird"⟩ conan_packages
        = configure ⟨"no", "local", "weird"⟩ conan_packages := by
  obtain ⟨hA, hB, hC, hD, hE, hF, hG⟩ :=
    configure_out_of_domain_fallthrough "maybe" "local" "weird"
  exact ⟨hA, hB (by decide), (hD (by decide)).1, (hD (by decide)).2,
    hF (by decide), hC (by decide)⟩
